import Mathlib

/-!
Shallow embedding of the scoring/classification engine of
`crypto_analyzer.py` (class `CryptoTrendAnalyzer` and its result model).
Python floats are modelled as rationals, `Optional[float]` as `Option ℚ`,
Python ints as `Int`/`Nat`.  Free-text reason/warning strings are modelled
as closed tag types (one constructor per distinct string the source can
append).
-/

/-- Embedding of the `TrendStatus` enum. -/
inductive TrendStatus
  | BULLISH_ALIGNED
  | BEARISH_ALIGNED
  | SHORT_BULLISH
  | SHORT_BEARISH
  | CONSOLIDATING
  | INSUFFICIENT_DATA
deriving DecidableEq

/-- Embedding of the `BiasLevel` enum. -/
inductive BiasLevel
  | OVERSOLD
  | LOW_RISK
  | NORMAL
  | CAUTION
  | HIGH_RISK
deriving DecidableEq

/-- Embedding of the `SignalType` enum (including the `WAIT` default variant). -/
inductive SignalType
  | STRONG_BUY
  | BUY
  | HOLD
  | SELL
  | STRONG_SELL
  | WAIT
deriving DecidableEq

/-- Embedding of the warning strings `_check_onchain_risks` can append.
One constructor per distinct message; graded messages carry their
computed ratio payload where the source formats it into the string. -/
inductive Warning
  | LiquidityExtremelyLow            -- "流动性极低 (<$10K)"
  | LiquidityLow                     -- "流动性较低 (<$50K)"
  | FdvRatioHigh (ratio : ℚ)         -- "FDV/市值比过高 (..x)"
  | SellPressure (ratio : ℚ)         -- "卖盘压力大 (买卖比 ..)"
  | NewPool24h                       -- "新币风险 (<24h)"
  | NewPool3d                        -- "新币 (<3天)"
deriving DecidableEq

/-- Embedding of the reason strings `_generate_signal` can append. -/
inductive Reason
  | BullishAligned   -- "多头排列"
  | BearishAligned   -- "空头排列"
  | ShortBullish     -- "短期看多"
  | ShortBearish     -- "短期看空"
  | Oversold         -- "超卖区"
  | LowRiskZone      -- "低风险区"
  | BiasHigh         -- "乖离率偏高"
  | NoChasing        -- "严禁追高"
  | PumpTooBig       -- "24h涨幅过大"
  | BigPullback      -- "大幅回调"
  | VolumeUp         -- "放量"
  | VolumeDown       -- "缩量"
  | BuyStrong        -- "买盘强势"
  | SellStrong       -- "卖盘强势"
  | HoldersUp        -- "持有人增加"
  | HoldersDown      -- "持有人减少"
  | MultipleRisks    -- "多重风险"
deriving DecidableEq

/-- Embedding of the `TechnicalIndicators` dataclass (fields the scoring
engine reads; defaults as in the dataclass). -/
structure TechnicalIndicators where
  ma7 : Option ℚ := none
  ma25 : Option ℚ := none
  ma99 : Option ℚ := none
  bias_7 : Option ℚ := none
  bias_25 : Option ℚ := none
  trend_status : TrendStatus := TrendStatus.INSUFFICIENT_DATA
  bias_level : BiasLevel := BiasLevel.NORMAL
  volume_change_24h : Option ℚ := none
deriving DecidableEq

/-- Embedding of the `OnchainIndicators` dataclass (fields the scoring
engine reads).  `buySellRatio` embeds the source field `buy_sell_ratio`
(default 1.0). -/
structure OnchainIndicators where
  holder_count : Option Int := none
  holder_change_24h : Option Int := none
  liquidity_usd : ℚ := 0
  buys_24h : Nat := 0
  sells_24h : Nat := 0
  buySellRatio : ℚ := 1
deriving DecidableEq

/-- Embedding of the `TokenInfo` record fields read by
`_check_onchain_risks`.  `pool_age_hours` embeds
`(datetime.now() - token.pool_created_at).total_seconds() / 3600`,
i.e. the pool age in hours at analysis time (`none` when
`pool_created_at` is absent). -/
structure TokenInfo where
  liquidity_usd : ℚ := 0
  fdv : Option ℚ := none
  market_cap : Option ℚ := none
  buys_24h : Nat := 0
  sells_24h : Nat := 0
  pool_age_hours : Option ℚ := none
deriving DecidableEq

/-- Class attribute `BIAS_THRESHOLD_LOW = 5.0` of `CryptoTrendAnalyzer`. -/
def BIAS_THRESHOLD_LOW : ℚ := 5

/-- Class attribute `BIAS_THRESHOLD_CAUTION = 10.0` of `CryptoTrendAnalyzer`
(the per-instance value is overwritten from configuration in `__init__`,
so the classifiers below take the thresholds as parameters). -/
def BIAS_THRESHOLD_CAUTION : ℚ := 10

/-- Embedding of `CryptoTrendAnalyzer._determine_trend`. -/
def determine_trend (ma7 ma25 ma99 : Option ℚ) : TrendStatus :=
  match ma7 with
  | none => TrendStatus.INSUFFICIENT_DATA
  | some m7 =>
    match ma25, ma99 with
    | some m25, some m99 =>
        if m7 > m25 ∧ m25 > m99 then TrendStatus.BULLISH_ALIGNED
        else if m7 < m25 ∧ m25 < m99 then TrendStatus.BEARISH_ALIGNED
        else TrendStatus.CONSOLIDATING
    | some m25, none =>
        if m7 > m25 then TrendStatus.SHORT_BULLISH
        else TrendStatus.SHORT_BEARISH
    | none, _ => TrendStatus.INSUFFICIENT_DATA

/-- Embedding of `CryptoTrendAnalyzer._determine_bias_level`, with the
instance thresholds `BIAS_THRESHOLD_LOW` / `BIAS_THRESHOLD_CAUTION`
passed explicitly as `low` / `caution`. -/
def determine_bias_level (low caution : ℚ) (bias : Option ℚ) : BiasLevel :=
  match bias with
  | none => BiasLevel.NORMAL
  | some b =>
    if b < -caution then BiasLevel.OVERSOLD
    else if b < 0 then BiasLevel.LOW_RISK
    else if b < low then BiasLevel.NORMAL
    else if b < caution then BiasLevel.CAUTION
    else BiasLevel.HIGH_RISK

/-- Liquidity block of `_check_onchain_risks`. -/
def liquidity_warnings (token : TokenInfo) : List Warning :=
  if token.liquidity_usd < 10000 then [Warning.LiquidityExtremelyLow]
  else if token.liquidity_usd < 50000 then [Warning.LiquidityLow]
  else []

/-- FDV block of `_check_onchain_risks`.  Python truthiness of
`token.fdv and token.market_cap` (a float is falsy exactly when it is
0.0 or `None`) is made explicit. -/
def fdv_warnings (token : TokenInfo) : List Warning :=
  match token.fdv, token.market_cap with
  | some f, some m =>
      if f ≠ 0 ∧ m ≠ 0 then
        let fdv_ratio : ℚ := if m > 0 then f / m else 0
        if fdv_ratio > 10 then [Warning.FdvRatioHigh fdv_ratio] else []
      else []
  | _, _ => []

/-- Buy/sell-pressure block of `_check_onchain_risks`; `mkRat 1 2`
embeds the source literal `0.5`. -/
def sell_warnings (token : TokenInfo) : List Warning :=
  if token.sells_24h > 0 then
    let r : ℚ := (token.buys_24h : ℚ) / (token.sells_24h : ℚ)
    if r < mkRat 1 2 then [Warning.SellPressure r] else []
  else []

/-- New-pool block of `_check_onchain_risks`. -/
def age_warnings (token : TokenInfo) : List Warning :=
  match token.pool_age_hours with
  | some age =>
      if age < 24 then [Warning.NewPool24h]
      else if age < 72 then [Warning.NewPool3d]
      else []
  | none => []

/-- Embedding of `CryptoTrendAnalyzer._check_onchain_risks`: the four
rule blocks evaluated in source order, their warnings appended into
`result.risk_warnings`. -/
def check_onchain_risks (token : TokenInfo) : List Warning :=
  liquidity_warnings token ++ fdv_warnings token
    ++ sell_warnings token ++ age_warnings token

/-- Trend block of `_generate_signal` (score delta, reasons appended). -/
def trend_delta : TrendStatus → Int × List Reason
  | TrendStatus.BULLISH_ALIGNED => (20, [Reason.BullishAligned])
  | TrendStatus.BEARISH_ALIGNED => (-20, [Reason.BearishAligned])
  | TrendStatus.SHORT_BULLISH => (10, [Reason.ShortBullish])
  | TrendStatus.SHORT_BEARISH => (-10, [Reason.ShortBearish])
  | _ => (0, [])

/-- Bias block of `_generate_signal`. -/
def bias_delta : BiasLevel → Int × List Reason
  | BiasLevel.OVERSOLD => (15, [Reason.Oversold])
  | BiasLevel.LOW_RISK => (10, [Reason.LowRiskZone])
  | BiasLevel.CAUTION => (-10, [Reason.BiasHigh])
  | BiasLevel.HIGH_RISK => (-20, [Reason.NoChasing])
  | BiasLevel.NORMAL => (0, [])

/-- Price-momentum block of `_generate_signal`.  Note the source appends
no reason in the `> 10` and `< -10` branches. -/
def price_delta (pc : ℚ) : Int × List Reason :=
  if pc > 20 then (-10, [Reason.PumpTooBig])
  else if pc > 10 then (-5, [])
  else if pc < -20 then (5, [Reason.BigPullback])
  else if pc < -10 then (3, [])
  else (0, [])

/-- Volume block of `_generate_signal`; the outer guard is Python
truthiness of `tech.volume_change_24h` (`None` and `0.0` are falsy). -/
def volume_delta : Option ℚ → Int × List Reason
  | none => (0, [])
  | some v =>
      if v ≠ 0 then
        if v > 100 then (5, [Reason.VolumeUp])
        else if v < -50 then (-5, [Reason.VolumeDown])
        else (0, [])
      else (0, [])

/-- Buy/sell-ratio block of `_generate_signal`; `mkRat 3 2` and
`mkRat 1 2` embed the source literals `1.5` and `0.5`. -/
def ratio_delta (r : ℚ) : Int × List Reason :=
  if r > mkRat 3 2 then (10, [Reason.BuyStrong])
  else if r < mkRat 1 2 then (-10, [Reason.SellStrong])
  else (0, [])

/-- Holder-change block of `_generate_signal`; the outer guard is Python
truthiness of `onchain.holder_change_24h` (`None` and `0` are falsy). -/
def holder_delta : Option Int → Int × List Reason
  | none => (0, [])
  | some h =>
      if h ≠ 0 then
        if h > 100 then (5, [Reason.HoldersUp])
        else if h < -100 then (-5, [Reason.HoldersDown])
        else (0, [])
      else (0, [])

/-- Score → signal threshold chain of `_generate_signal`. -/
def score_to_signal (score : Int) : SignalType :=
  if score ≥ 80 then SignalType.STRONG_BUY
  else if score ≥ 65 then SignalType.BUY
  else if score ≥ 45 then SignalType.HOLD
  else if score ≥ 30 then SignalType.SELL
  else SignalType.STRONG_SELL

/-- Embedding of `CryptoTrendAnalyzer._generate_signal`.  Returns the
triple the source writes into the result record:
`(result.signal, result.signal_strength, result.signal_reasons)`.
The reason list is accumulated in source order (trend, bias, price,
volume, ratio, holder, then the downgrade block); note that in the
source the "多重风险" append sits inside the `len(risk_warnings) >= 3`
guard but outside the two signal-equality checks. -/
def generate_signal (tech : TechnicalIndicators) (onchain : OnchainIndicators)
    (price_change_24h : ℚ) (risk_warnings : List Warning) :
    SignalType × Int × List Reason :=
  let td := trend_delta tech.trend_status
  let bd := bias_delta tech.bias_level
  let pd := price_delta price_change_24h
  let vd := volume_delta tech.volume_change_24h
  let rd := ratio_delta onchain.buySellRatio
  let hd := holder_delta onchain.holder_change_24h
  let score : Int :=
    50 + td.1 + bd.1 + pd.1 + vd.1 + rd.1 + hd.1
      - (risk_warnings.length : Int) * 5
  let reasons : List Reason := td.2 ++ bd.2 ++ pd.2 ++ vd.2 ++ rd.2 ++ hd.2
  let score : Int := max 0 (min 100 score)
  let signal : SignalType := score_to_signal score
  let signal : SignalType :=
    if 3 ≤ risk_warnings.length then
      if signal = SignalType.STRONG_BUY then SignalType.BUY
      else if signal = SignalType.BUY then SignalType.HOLD
      else signal
    else signal
  let reasons : List Reason :=
    if 3 ≤ risk_warnings.length then reasons ++ [Reason.MultipleRisks]
    else reasons
  (signal, score, reasons)

/-- Trailing simple moving average over the last `w` entries, embedding
`df['close'].rolling(window=w).mean().iloc[-1]`. -/
def rollMean (w : Nat) (xs : List ℚ) : ℚ :=
  (xs.drop (xs.length - w)).sum / (w : ℚ)

/-- Embedding of `CryptoTrendAnalyzer._calculate_technical_indicators`
as a function of the close and volume columns of the candle frame
(`low` / `caution` are the instance bias thresholds).  The early
`return` for fewer than 7 candles leaves the dataclass defaults; the
bias guards embed `if ma and ma > 0` (Python truthiness plus the
strict positivity check). -/
def calculate_technical_indicators (low caution : ℚ)
    (closes vols : List ℚ) : TechnicalIndicators :=
  if closes.length < 7 then {}
  else
    let current_price : ℚ := (closes.getLast?).getD 0
    let m7 : Option ℚ := some (rollMean 7 closes)
    let m25 : Option ℚ :=
      if 25 ≤ closes.length then some (rollMean 25 closes) else none
    let m99 : Option ℚ :=
      if 99 ≤ closes.length then some (rollMean 99 closes) else none
    let b7 : Option ℚ :=
      match m7 with
      | some m => if 0 < m then some ((current_price - m) / m * 100) else none
      | none => none
    let b25 : Option ℚ :=
      match m25 with
      | some m => if 0 < m then some ((current_price - m) / m * 100) else none
      | none => none
    let vc : Option ℚ :=
      if 2 ≤ vols.length then
        let vol_today : ℚ := (vols.getLast?).getD 0
        let vol_yesterday : ℚ := (vols[vols.length - 2]?).getD 0
        if 0 < vol_yesterday then
          some ((vol_today - vol_yesterday) / vol_yesterday * 100)
        else none
      else none
    { ma7 := m7, ma25 := m25, ma99 := m99, bias_7 := b7, bias_25 := b25,
      trend_status := determine_trend m7 m25 m99,
      bias_level := determine_bias_level low caution b7,
      volume_change_24h := vc }

/-- Result record as the batch runner sees it (the fields `analyze_batch`
reads: the dataclass defaults `signal = WAIT`, `signal_strength = 0`). -/
structure AnalysisResult where
  signal : SignalType := SignalType.WAIT
  signal_strength : Int := 0
deriving DecidableEq

/-- Descending stable insertion used to embed
`results.sort(key=lambda x: x.signal_strength, reverse=True)`. -/
def insert_desc (r : AnalysisResult) : List AnalysisResult → List AnalysisResult
  | [] => [r]
  | x :: xs =>
      if r.signal_strength ≤ x.signal_strength then x :: insert_desc r xs
      else r :: x :: xs

/-- Sort of the collected results by `signal_strength`, descending. -/
def sort_desc : List AnalysisResult → List AnalysisResult
  | [] => []
  | x :: xs => insert_desc x (sort_desc xs)

/-- Embedding of `CryptoTrendAnalyzer.analyze_batch`.  The per-symbol
analysis (`self.analyze`, which catches every exception and returns
`None`, wrapped again in the loop's own `try/except ... continue`) is
modelled as an arbitrary `Option`-valued function `f`: `none` covers
both a fetch failure and an exception raised while analyzing that
symbol. -/
def analyze_batch {α : Type} (f : α → Option AnalysisResult)
    (identifiers : List α) : List AnalysisResult :=
  sort_desc (identifiers.filterMap f)

/-- Modelled from the spec (spec side of the refinement in C1): the
trend row of the modifier table of §4.5. -/
def spec_trend_mod (t : TrendStatus) : Int :=
  if t = TrendStatus.BULLISH_ALIGNED then 20
  else if t = TrendStatus.BEARISH_ALIGNED then -20
  else if t = TrendStatus.SHORT_BULLISH then 10
  else if t = TrendStatus.SHORT_BEARISH then -10
  else 0

/-- Modelled from the spec (spec side of the refinement in C1): the
bias-level rows of the modifier table of §4.5. -/
def spec_bias_mod (b : BiasLevel) : Int :=
  if b = BiasLevel.OVERSOLD then 15
  else if b = BiasLevel.LOW_RISK then 10
  else if b = BiasLevel.CAUTION then -10
  else if b = BiasLevel.HIGH_RISK then -20
  else 0

/-- Modelled from the spec (spec side of the refinement in C1): the 24h
price-change rows of the modifier table of §4.5. -/
def spec_price_mod (pc : ℚ) : Int :=
  if pc > 20 then -10
  else if pc > 10 then -5
  else if pc < -20 then 5
  else if pc < -10 then 3
  else 0

/-- Modelled from the spec (spec side of the refinement in C1): the
volume-change rows of the modifier table of §4.5 (no modifier when the
value is absent). -/
def spec_volume_mod : Option ℚ → Int
  | none => 0
  | some v => if v > 100 then 5 else if v < -50 then -5 else 0

/-- Modelled from the spec (spec side of the refinement in C1): the
buy/sell-ratio rows of the modifier table of §4.5. -/
def spec_ratio_mod (r : ℚ) : Int :=
  if r > mkRat 3 2 then 10 else if r < mkRat 1 2 then -10 else 0

/-- Modelled from the spec (spec side of the refinement in C1): the
holder-change rows of the modifier table of §4.5 (no modifier when the
value is absent). -/
def spec_holder_mod : Option Int → Int
  | none => 0
  | some h => if h > 100 then 5 else if h < -100 then -5 else 0

/-- Modelled from the spec (spec side of the refinement in C1): the sum
of the applicable modifiers of §4.5, including the −5-per-risk-warning
row. -/
def spec_modifiers (t : TrendStatus) (b : BiasLevel) (pc : ℚ)
    (vc : Option ℚ) (r : ℚ) (hc : Option Int) (nwarn : Nat) : Int :=
  spec_trend_mod t + spec_bias_mod b + spec_price_mod pc
    + spec_volume_mod vc + spec_ratio_mod r + spec_holder_mod hc
    - (nwarn : Int) * 5


/-- Score contribution of the trend block agrees with the spec table. -/
lemma trend_delta_fst (t : TrendStatus) : (trend_delta t).1 = spec_trend_mod t := by
  cases t <;> rfl

/-- Score contribution of the bias block agrees with the spec table. -/
lemma bias_delta_fst (b : BiasLevel) : (bias_delta b).1 = spec_bias_mod b := by
  cases b <;> rfl

/-- Score contribution of the price block agrees with the spec table. -/
lemma price_delta_fst (pc : ℚ) : (price_delta pc).1 = spec_price_mod pc := by
  unfold price_delta spec_price_mod
  split_ifs <;> rfl

/-- Score contribution of the volume block agrees with the spec table
(the Python truthiness guard makes no difference to the score because a
zero change matches neither graded branch). -/
lemma volume_delta_fst (vc : Option ℚ) : (volume_delta vc).1 = spec_volume_mod vc := by
  cases vc with
  | none => rfl
  | some v =>
      by_cases h : v = 0
      · subst h
        simp only [volume_delta, spec_volume_mod, if_neg (by norm_num : ¬(0:ℚ) ≠ 0)]
        norm_num
      · simp only [volume_delta, spec_volume_mod, if_pos h]
        split_ifs <;> rfl

/-- Score contribution of the ratio block agrees with the spec table. -/
lemma ratio_delta_fst (r : ℚ) : (ratio_delta r).1 = spec_ratio_mod r := by
  unfold ratio_delta spec_ratio_mod
  split_ifs <;> rfl

/-- Score contribution of the holder block agrees with the spec table. -/
lemma holder_delta_fst (hc : Option Int) : (holder_delta hc).1 = spec_holder_mod hc := by
  cases hc with
  | none => rfl
  | some h =>
      by_cases hz : h = 0
      · subst hz
        simp only [holder_delta, spec_holder_mod, if_neg (by norm_num : ¬(0:Int) ≠ 0)]
        norm_num
      · simp only [holder_delta, spec_holder_mod, if_pos hz]
        split_ifs <;> rfl

/-- Final score of `_generate_signal` as base-plus-modifiers-then-clamp. -/
lemma generate_signal_score (tech : TechnicalIndicators)
    (onchain : OnchainIndicators) (pc : ℚ) (warns : List Warning) :
    (generate_signal tech onchain pc warns).2.1
      = max 0 (min 100 (50 + spec_modifiers tech.trend_status tech.bias_level
          pc tech.volume_change_24h onchain.buySellRatio
          onchain.holder_change_24h warns.length)) := by
  simp only [generate_signal, spec_modifiers, trend_delta_fst, bias_delta_fst,
    price_delta_fst, volume_delta_fst, ratio_delta_fst, holder_delta_fst]
  congr 1
  congr 1
  ring

/-- Inserting into the descending-sorted list is a permutation. -/
lemma insert_desc_perm (r : AnalysisResult) (l : List AnalysisResult) :
    List.Perm (insert_desc r l) (r :: l) := by
  induction l with
  | nil => exact List.Perm.refl _
  | cons x xs ih =>
      simp only [insert_desc]
      split
      · exact (List.Perm.cons x ih).trans (List.Perm.swap r x xs)
      · exact List.Perm.refl _

/-- The descending sort is a permutation of its input. -/
lemma sort_desc_perm (l : List AnalysisResult) :
    List.Perm (sort_desc l) l := by
  induction l with
  | nil => exact List.Perm.refl _
  | cons x xs ih =>
      exact (insert_desc_perm x (sort_desc xs)).trans (List.Perm.cons x ih)

/-- The trend block never appends the downgrade tag. -/
lemma trend_delta_no_multi (t : TrendStatus) :
    Reason.MultipleRisks ∉ (trend_delta t).2 := by
  cases t <;> decide

/-- The bias block never appends the downgrade tag. -/
lemma bias_delta_no_multi (b : BiasLevel) :
    Reason.MultipleRisks ∉ (bias_delta b).2 := by
  cases b <;> decide

/-- The price block never appends the downgrade tag. -/
lemma price_delta_no_multi (pc : ℚ) :
    Reason.MultipleRisks ∉ (price_delta pc).2 := by
  unfold price_delta
  split_ifs <;> decide

/-- The volume block never appends the downgrade tag. -/
lemma volume_delta_no_multi (vc : Option ℚ) :
    Reason.MultipleRisks ∉ (volume_delta vc).2 := by
  cases vc with
  | none => decide
  | some v =>
      simp only [volume_delta]
      split_ifs <;> decide

/-- The ratio block never appends the downgrade tag. -/
lemma ratio_delta_no_multi (r : ℚ) :
    Reason.MultipleRisks ∉ (ratio_delta r).2 := by
  unfold ratio_delta
  split_ifs <;> decide

/-- The holder block never appends the downgrade tag. -/
lemma holder_delta_no_multi (hc : Option Int) :
    Reason.MultipleRisks ∉ (holder_delta hc).2 := by
  cases hc with
  | none => decide
  | some h =>
      simp only [holder_delta]
      split_ifs <;> decide

/-- The threshold chain never yields the `WAIT` variant. -/
lemma score_to_signal_ne_wait (z : Int) :
    score_to_signal z ≠ SignalType.WAIT := by
  unfold score_to_signal
  split_ifs <;> simp

/-- The downgrade step keeps the signal inside the five-element set. -/
lemma downgrade_closed (s : SignalType) (n : Nat) (hs : s ≠ SignalType.WAIT) :
    (if 3 ≤ n then
       if s = SignalType.STRONG_BUY then SignalType.BUY
       else if s = SignalType.BUY then SignalType.HOLD
       else s
     else s) = SignalType.STRONG_BUY ∨
    (if 3 ≤ n then
       if s = SignalType.STRONG_BUY then SignalType.BUY
       else if s = SignalType.BUY then SignalType.HOLD
       else s
     else s) = SignalType.BUY ∨
    (if 3 ≤ n then
       if s = SignalType.STRONG_BUY then SignalType.BUY
       else if s = SignalType.BUY then SignalType.HOLD
       else s
     else s) = SignalType.HOLD ∨
    (if 3 ≤ n then
       if s = SignalType.STRONG_BUY then SignalType.BUY
       else if s = SignalType.BUY then SignalType.HOLD
       else s
     else s) = SignalType.SELL ∨
    (if 3 ≤ n then
       if s = SignalType.STRONG_BUY then SignalType.BUY
       else if s = SignalType.BUY then SignalType.HOLD
       else s
     else s) = SignalType.STRONG_SELL := by
  cases s <;> split_ifs <;> simp_all

/-- The if-chain downgrade of the source is the one-tier match of the
specification. -/
lemma downgrade_if_eq_match (s : SignalType) :
    (if s = SignalType.STRONG_BUY then SignalType.BUY
     else if s = SignalType.BUY then SignalType.HOLD
     else s)
    = (match s with
       | SignalType.STRONG_BUY => SignalType.BUY
       | SignalType.BUY => SignalType.HOLD
       | x => x) := by
  cases s <;> rfl

/-- The downgrade step never introduces the `WAIT` variant. -/
lemma downgrade_ne_wait (s : SignalType) (n : Nat) (hs : s ≠ SignalType.WAIT) :
    (if 3 ≤ n then
       if s = SignalType.STRONG_BUY then SignalType.BUY
       else if s = SignalType.BUY then SignalType.HOLD
       else s
     else s) ≠ SignalType.WAIT := by
  cases s <;> split_ifs <;> simp_all

/-- C1: the signal scorer computes `signal_strength` as
`clamp(50 + Σ modifiers, 0, 100)` with exactly the modifier table of the
specification (`spec_modifiers`), and the result is always within
`[0, 100]` for every combination of inputs. -/
theorem C1_score_clamp (tech : TechnicalIndicators)
    (onchain : OnchainIndicators) (pc : ℚ) (warns : List Warning) :
    (generate_signal tech onchain pc warns).2.1
      = max 0 (min 100 (50 + spec_modifiers tech.trend_status tech.bias_level
          pc tech.volume_change_24h onchain.buySellRatio
          onchain.holder_change_24h warns.length))
    ∧ 0 ≤ (generate_signal tech onchain pc warns).2.1
    ∧ (generate_signal tech onchain pc warns).2.1 ≤ 100 := by
  refine ⟨generate_signal_score tech onchain pc warns, ?_, ?_⟩
  · rw [generate_signal_score]
    exact le_max_left 0 _
  · rw [generate_signal_score]
    exact max_le (by norm_num) (min_le_left 100 _)

/-- C2: the signal is obtained from the final clamped score by
first-match thresholds (≥80 STRONG_BUY, ≥65 BUY, ≥45 HOLD, ≥30 SELL,
else STRONG_SELL), and with at least 3 risk warnings a raw STRONG_BUY
is downgraded exactly one tier to BUY and a raw BUY to HOLD, while
HOLD, SELL and STRONG_SELL are left unchanged. -/
theorem C2_thresholds_and_downgrade (tech : TechnicalIndicators)
    (onchain : OnchainIndicators) (pc : ℚ) (warns : List Warning) :
    score_to_signal (generate_signal tech onchain pc warns).2.1
      = (if (generate_signal tech onchain pc warns).2.1 ≥ 80 then SignalType.STRONG_BUY
         else if (generate_signal tech onchain pc warns).2.1 ≥ 65 then SignalType.BUY
         else if (generate_signal tech onchain pc warns).2.1 ≥ 45 then SignalType.HOLD
         else if (generate_signal tech onchain pc warns).2.1 ≥ 30 then SignalType.SELL
         else SignalType.STRONG_SELL)
    ∧ (generate_signal tech onchain pc warns).1
      = (if 3 ≤ warns.length then
           match score_to_signal (generate_signal tech onchain pc warns).2.1 with
           | SignalType.STRONG_BUY => SignalType.BUY
           | SignalType.BUY => SignalType.HOLD
           | s => s
         else score_to_signal (generate_signal tech onchain pc warns).2.1) := by
  constructor
  · rfl
  · simp only [generate_signal]
    by_cases h : 3 ≤ warns.length
    · simp only [if_pos h]
      exact downgrade_if_eq_match _
    · simp only [if_neg h]

/-- C3: the trend classifier is total in the three optional moving
averages: no `ma7` or no `ma25` gives INSUFFICIENT_DATA; with all three
present, strict alignment gives BULLISH_ALIGNED / BEARISH_ALIGNED and
everything else (ties included) CONSOLIDATING; with `ma99` absent,
`ma7 > ma25` gives SHORT_BULLISH and otherwise (ties included)
SHORT_BEARISH. -/
theorem C3_trend_classifier (m7 m25 m99 : ℚ) (o25 o99 : Option ℚ) :
    determine_trend none o25 o99 = TrendStatus.INSUFFICIENT_DATA
    ∧ determine_trend (some m7) none o99 = TrendStatus.INSUFFICIENT_DATA
    ∧ determine_trend (some m7) (some m25) (some m99)
        = (if m7 > m25 ∧ m25 > m99 then TrendStatus.BULLISH_ALIGNED
           else if m7 < m25 ∧ m25 < m99 then TrendStatus.BEARISH_ALIGNED
           else TrendStatus.CONSOLIDATING)
    ∧ determine_trend (some m7) (some m25) none
        = (if m7 > m25 then TrendStatus.SHORT_BULLISH
           else TrendStatus.SHORT_BEARISH)
    ∧ determine_trend (some (m25 + 1)) (some m25) (some m25)
        = TrendStatus.CONSOLIDATING
    ∧ determine_trend (some m25) (some m25) none = TrendStatus.SHORT_BEARISH := by
  refine ⟨rfl, ?_, rfl, rfl, ?_, ?_⟩
  · cases o99 <;> rfl
  · simp [determine_trend, lt_self_iff_false]
  · simp [determine_trend, lt_self_iff_false]

/-- C4: the bias classifier maps an optional bias and thresholds
`low` / `caution` (defaults 5.0 and 10.0, the latter configurable) as
half-open buckets, boundary values falling to the lower bucket. -/
theorem C4_bias_buckets (low caution b : ℚ)
    (hl : 0 ≤ low) (hlc : low ≤ caution) :
    BIAS_THRESHOLD_LOW = 5
    ∧ BIAS_THRESHOLD_CAUTION = 10
    ∧ determine_bias_level low caution none = BiasLevel.NORMAL
    ∧ (b < -caution →
        determine_bias_level low caution (some b) = BiasLevel.OVERSOLD)
    ∧ (-caution ≤ b → b < 0 →
        determine_bias_level low caution (some b) = BiasLevel.LOW_RISK)
    ∧ (0 ≤ b → b < low →
        determine_bias_level low caution (some b) = BiasLevel.NORMAL)
    ∧ (low ≤ b → b < caution →
        determine_bias_level low caution (some b) = BiasLevel.CAUTION)
    ∧ (caution ≤ b →
        determine_bias_level low caution (some b) = BiasLevel.HIGH_RISK) := by
  refine ⟨rfl, rfl, rfl, ?_, ?_, ?_, ?_, ?_⟩
  · intro h
    simp only [determine_bias_level]
    rw [if_pos h]
  · intro h1 h2
    simp only [determine_bias_level]
    rw [if_neg (not_lt.mpr h1), if_pos h2]
  · intro h1 h2
    simp only [determine_bias_level]
    rw [if_neg (not_lt.mpr (by linarith)), if_neg (not_lt.mpr h1), if_pos h2]
  · intro h1 h2
    simp only [determine_bias_level]
    rw [if_neg (not_lt.mpr (by linarith)), if_neg (not_lt.mpr (by linarith)),
      if_neg (not_lt.mpr h1), if_pos h2]
  · intro h
    simp only [determine_bias_level]
    rw [if_neg (not_lt.mpr (by linarith)), if_neg (not_lt.mpr (by linarith)),
      if_neg (not_lt.mpr (by linarith)), if_neg (not_lt.mpr (by linarith))]

/-- C4 witness: with the default thresholds, a bias of 7 falls in
CAUTION and a bias of −11 in OVERSOLD. -/
theorem C4_bias_buckets_witness :
    determine_bias_level 5 10 (some 7) = BiasLevel.CAUTION
    ∧ determine_bias_level 5 10 (some (-11)) = BiasLevel.OVERSOLD := by
  constructor
  · exact (C4_bias_buckets 5 10 7 (by norm_num)
      (by norm_num)).2.2.2.2.2.2.1 (by norm_num) (by norm_num)
  · exact (C4_bias_buckets 5 10 (-11) (by norm_num)
      (by norm_num)).2.2.2.1 (by norm_num)

/-- C10: the scorer always assigns one of the five tradable signals, so
the `WAIT` default of the result type never survives signal
generation. -/
theorem C10_signal_in_five (tech : TechnicalIndicators)
    (onchain : OnchainIndicators) (pc : ℚ) (warns : List Warning) :
    (generate_signal tech onchain pc warns).1 ≠ SignalType.WAIT
    ∧ ((generate_signal tech onchain pc warns).1 = SignalType.STRONG_BUY
       ∨ (generate_signal tech onchain pc warns).1 = SignalType.BUY
       ∨ (generate_signal tech onchain pc warns).1 = SignalType.HOLD
       ∨ (generate_signal tech onchain pc warns).1 = SignalType.SELL
       ∨ (generate_signal tech onchain pc warns).1 = SignalType.STRONG_SELL) := by
  constructor
  · simp only [generate_signal]
    exact downgrade_ne_wait _ _ (score_to_signal_ne_wait _)
  · simp only [generate_signal]
    exact downgrade_closed _ _ (score_to_signal_ne_wait _)

/-- C5 (amended): with fewer than 7 candles every moving average and
bias is left absent; with at least 7 candles `bias7` is
`(close − ma7) / ma7 × 100` exactly when `ma7 > 0` (not merely
`ma7 ≠ 0`), and the same rule ties `bias25` to `ma25`. -/
theorem C5_bias_rule (low caution : ℚ) (closes vols : List ℚ) :
    (closes.length < 7 →
       (calculate_technical_indicators low caution closes vols).ma7 = none
       ∧ (calculate_technical_indicators low caution closes vols).ma25 = none
       ∧ (calculate_technical_indicators low caution closes vols).ma99 = none
       ∧ (calculate_technical_indicators low caution closes vols).bias_7 = none
       ∧ (calculate_technical_indicators low caution closes vols).bias_25 = none)
    ∧ (7 ≤ closes.length →
       (calculate_technical_indicators low caution closes vols).ma7
         = some (rollMean 7 closes)
       ∧ (calculate_technical_indicators low caution closes vols).bias_7
         = (if 0 < rollMean 7 closes
            then some (((closes.getLast?).getD 0 - rollMean 7 closes)
                / rollMean 7 closes * 100)
            else none)
       ∧ (calculate_technical_indicators low caution closes vols).bias_25
         = (match (calculate_technical_indicators low caution closes vols).ma25 with
            | some m =>
                if 0 < m
                then some (((closes.getLast?).getD 0 - m) / m * 100)
                else none
            | none => none)) := by
  constructor
  · intro h
    simp [calculate_technical_indicators, if_pos h]
  · intro h
    have h7 : ¬ closes.length < 7 := not_lt.mpr h
    simp only [calculate_technical_indicators, if_neg h7]
    exact ⟨trivial, trivial, trivial⟩

/-- C5 witness: a single candle leaves `ma7` absent; seven candles at
price 2 give `ma7 = 2 > 0` and a zero bias. -/
theorem C5_bias_rule_witness :
    (calculate_technical_indicators 5 10 [1] []).ma7 = none
    ∧ (calculate_technical_indicators 5 10 (List.replicate 7 (2:ℚ)) []).bias_7
        = some 0 := by
  constructor
  · exact ((C5_bias_rule 5 10 [1] []).1 (by norm_num)).1
  · have h := ((C5_bias_rule 5 10 (List.replicate 7 (2:ℚ)) []).2 (by norm_num)).2.1
    rw [h]
    have hm : rollMean 7 (List.replicate 7 (2:ℚ)) = 2 := by
      norm_num [rollMean, List.replicate]
    have hc : ((List.replicate 7 (2:ℚ)).getLast?).getD 0 = 2 := by decide
    rw [hm, hc]
    norm_num

/-- C5 counterexample: on seven candles closing at −1 the trailing mean
is −1 ≠ 0, yet the source leaves `bias_7` absent (its guard is
`ma7 > 0`, not `ma7 ≠ 0` as the claim states). -/
theorem C5_counterexample :
    (calculate_technical_indicators 5 10 (List.replicate 7 (-1:ℚ)) []).ma7
      = some (-1)
    ∧ ((-1:ℚ) ≠ 0)
    ∧ (calculate_technical_indicators 5 10 (List.replicate 7 (-1:ℚ)) []).bias_7
      = none := by
  have hm : rollMean 7 (List.replicate 7 (-1:ℚ)) = -1 := by
    norm_num [rollMean, List.replicate]
  have hlen : ¬ (List.replicate 7 (-1:ℚ)).length < 7 := by norm_num
  refine ⟨?_, by norm_num, ?_⟩
  · simp only [calculate_technical_indicators, if_neg hlen, hm]
  · simp only [calculate_technical_indicators, if_neg hlen, hm]
    norm_num

/-- Warnings of the liquidity block are liquidity warnings. -/
lemma mem_liquidity_warnings (tok : TokenInfo) (w : Warning)
    (hw : w ∈ liquidity_warnings tok) :
    w = Warning.LiquidityExtremelyLow ∨ w = Warning.LiquidityLow := by
  unfold liquidity_warnings at hw
  split_ifs at hw <;> simp_all

/-- Warnings of the FDV block are FDV warnings. -/
lemma mem_fdv_warnings (tok : TokenInfo) (w : Warning)
    (hw : w ∈ fdv_warnings tok) :
    ∃ r, w = Warning.FdvRatioHigh r := by
  unfold fdv_warnings at hw
  cases hf : tok.fdv with
  | none => rw [hf] at hw; simp at hw
  | some f =>
      rw [hf] at hw
      cases hm : tok.market_cap with
      | none => rw [hm] at hw; simp at hw
      | some m =>
          rw [hm] at hw
          simp only [] at hw
          split_ifs at hw <;> simp_all

/-- Warnings of the sell-pressure block are sell-pressure warnings. -/
lemma mem_sell_warnings (tok : TokenInfo) (w : Warning)
    (hw : w ∈ sell_warnings tok) :
    ∃ r, w = Warning.SellPressure r := by
  unfold sell_warnings at hw
  split_ifs at hw <;> simp_all

/-- Warnings of the new-pool block are new-pool warnings. -/
lemma mem_age_warnings (tok : TokenInfo) (w : Warning)
    (hw : w ∈ age_warnings tok) :
    w = Warning.NewPool24h ∨ w = Warning.NewPool3d := by
  unfold age_warnings at hw
  cases ha : tok.pool_age_hours with
  | none => rw [ha] at hw; simp at hw
  | some age =>
      rw [ha] at hw
      simp only [] at hw
      split_ifs at hw <;> simp_all

/-- Membership of a liquidity warning in the full warning list is
decided by the liquidity block alone. -/
lemma mem_check_liquidity_iff (tok : TokenInfo) (w : Warning)
    (h1 : ∀ r, w ≠ Warning.FdvRatioHigh r)
    (h2 : ∀ r, w ≠ Warning.SellPressure r)
    (h3 : w ≠ Warning.NewPool24h) (h4 : w ≠ Warning.NewPool3d) :
    w ∈ check_onchain_risks tok ↔ w ∈ liquidity_warnings tok := by
  simp only [check_onchain_risks, List.mem_append]
  constructor
  · rintro (((h | h) | h) | h)
    · exact h
    · rcases mem_fdv_warnings _ _ h with ⟨r, hr⟩
      exact absurd hr (h1 r)
    · rcases mem_sell_warnings _ _ h with ⟨r, hr⟩
      exact absurd hr (h2 r)
    · rcases mem_age_warnings _ _ h with hr | hr
      · exact absurd hr h3
      · exact absurd hr h4
  · intro h
    exact Or.inl (Or.inl (Or.inl h))

/-- Membership of a new-pool warning in the full warning list is
decided by the new-pool block alone. -/
lemma mem_check_age_iff (tok : TokenInfo) (w : Warning)
    (h1 : w ≠ Warning.LiquidityExtremelyLow) (h2 : w ≠ Warning.LiquidityLow)
    (h3 : ∀ r, w ≠ Warning.FdvRatioHigh r)
    (h4 : ∀ r, w ≠ Warning.SellPressure r) :
    w ∈ check_onchain_risks tok ↔ w ∈ age_warnings tok := by
  simp only [check_onchain_risks, List.mem_append]
  constructor
  · rintro (((h | h) | h) | h)
    · rcases mem_liquidity_warnings _ _ h with hr | hr
      · exact absurd hr h1
      · exact absurd hr h2
    · rcases mem_fdv_warnings _ _ h with ⟨r, hr⟩
      exact absurd hr (h3 r)
    · rcases mem_sell_warnings _ _ h with ⟨r, hr⟩
      exact absurd hr (h4 r)
    · exact h
  · intro h
    exact Or.inr h

/-- C6: within each graded pair only the stricter warning fires
(liquidity <10K vs <50K, pool age <24h vs <3d), the rules are evaluated
independently, and every rule degrades to "no warning" when its
required inputs are absent (the detector is a total function). -/
theorem C6_risk_rules (tok : TokenInfo) :
    (tok.liquidity_usd < 10000 →
       Warning.LiquidityExtremelyLow ∈ check_onchain_risks tok
       ∧ Warning.LiquidityLow ∉ check_onchain_risks tok)
    ∧ (10000 ≤ tok.liquidity_usd → tok.liquidity_usd < 50000 →
       Warning.LiquidityLow ∈ check_onchain_risks tok
       ∧ Warning.LiquidityExtremelyLow ∉ check_onchain_risks tok)
    ∧ (∀ age : ℚ, tok.pool_age_hours = some age → age < 24 →
       Warning.NewPool24h ∈ check_onchain_risks tok
       ∧ Warning.NewPool3d ∉ check_onchain_risks tok)
    ∧ (∀ age : ℚ, tok.pool_age_hours = some age → 24 ≤ age → age < 72 →
       Warning.NewPool3d ∈ check_onchain_risks tok
       ∧ Warning.NewPool24h ∉ check_onchain_risks tok)
    ∧ (tok.pool_age_hours = none →
       Warning.NewPool24h ∉ check_onchain_risks tok
       ∧ Warning.NewPool3d ∉ check_onchain_risks tok)
    ∧ (tok.fdv = none →
       ∀ r : ℚ, Warning.FdvRatioHigh r ∉ check_onchain_risks tok)
    ∧ (tok.sells_24h = 0 →
       ∀ r : ℚ, Warning.SellPressure r ∉ check_onchain_risks tok) := by
  refine ⟨?_, ?_, ?_, ?_, ?_, ?_, ?_⟩
  · intro h
    constructor
    · rw [mem_check_liquidity_iff tok _ (fun r => by simp) (fun r => by simp)
        (by simp) (by simp)]
      simp [liquidity_warnings, if_pos h]
    · rw [mem_check_liquidity_iff tok _ (fun r => by simp) (fun r => by simp)
        (by simp) (by simp)]
      simp [liquidity_warnings, if_pos h]
  · intro h1 h2
    have hn : ¬ tok.liquidity_usd < 10000 := not_lt.mpr h1
    constructor
    · rw [mem_check_liquidity_iff tok _ (fun r => by simp) (fun r => by simp)
        (by simp) (by simp)]
      simp [liquidity_warnings, if_neg hn, if_pos h2]
    · rw [mem_check_liquidity_iff tok _ (fun r => by simp) (fun r => by simp)
        (by simp) (by simp)]
      simp [liquidity_warnings, if_neg hn, if_pos h2]
  · intro age ha hlt
    constructor
    · rw [mem_check_age_iff tok _ (by simp) (by simp) (fun r => by simp)
        (fun r => by simp)]
      simp [age_warnings, ha, if_pos hlt]
    · rw [mem_check_age_iff tok _ (by simp) (by simp) (fun r => by simp)
        (fun r => by simp)]
      simp [age_warnings, ha, if_pos hlt]
  · intro age ha h24 h72
    have hn : ¬ age < 24 := not_lt.mpr h24
    constructor
    · rw [mem_check_age_iff tok _ (by simp) (by simp) (fun r => by simp)
        (fun r => by simp)]
      simp [age_warnings, ha, if_neg hn, if_pos h72]
    · rw [mem_check_age_iff tok _ (by simp) (by simp) (fun r => by simp)
        (fun r => by simp)]
      simp [age_warnings, ha, if_neg hn, if_pos h72]
  · intro ha
    constructor
    · rw [mem_check_age_iff tok _ (by simp) (by simp) (fun r => by simp)
        (fun r => by simp)]
      simp [age_warnings, ha]
    · rw [mem_check_age_iff tok _ (by simp) (by simp) (fun r => by simp)
        (fun r => by simp)]
      simp [age_warnings, ha]
  · intro hf r hmem
    simp only [check_onchain_risks, List.mem_append] at hmem
    rcases hmem with ((h | h) | h) | h
    · rcases mem_liquidity_warnings _ _ h with hr | hr <;> simp at hr
    · unfold fdv_warnings at h
      rw [hf] at h
      simp at h
    · rcases mem_sell_warnings _ _ h with ⟨s, hs⟩
      simp at hs
    · rcases mem_age_warnings _ _ h with hr | hr <;> simp at hr
  · intro hs r hmem
    simp only [check_onchain_risks, List.mem_append] at hmem
    rcases hmem with ((h | h) | h) | h
    · rcases mem_liquidity_warnings _ _ h with hr | hr <;> simp at hr
    · rcases mem_fdv_warnings _ _ h with ⟨s, hr⟩
      simp at hr
    · unfold sell_warnings at h
      rw [hs] at h
      simp at h
    · rcases mem_age_warnings _ _ h with hr | hr <;> simp at hr

/-- C6 witness: a token with $5,000 liquidity and a 10-hour-old pool
fires only the stricter warning of each graded pair. -/
theorem C6_risk_rules_witness :
    Warning.LiquidityExtremelyLow
      ∈ check_onchain_risks { liquidity_usd := 5000, pool_age_hours := some 10 }
    ∧ Warning.LiquidityLow
      ∉ check_onchain_risks { liquidity_usd := 5000, pool_age_hours := some 10 }
    ∧ Warning.NewPool24h
      ∈ check_onchain_risks { liquidity_usd := 5000, pool_age_hours := some 10 }
    ∧ Warning.NewPool3d
      ∉ check_onchain_risks { liquidity_usd := 5000, pool_age_hours := some 10 } := by
  refine ⟨?_, ?_, ?_, ?_⟩
  · exact ((C6_risk_rules _).1 (by norm_num)).1
  · exact ((C6_risk_rules _).1 (by norm_num)).2
  · exact ((C6_risk_rules _).2.2.1 10 rfl (by norm_num)).1
  · exact ((C6_risk_rules _).2.2.1 10 rfl (by norm_num)).2

/-- C7: a failed symbol (fetch failure or exception, both surfacing as
`none` from the per-symbol boundary) never escapes and never aborts the
batch: the batch output is a permutation-by-sorting of exactly the
successful analyses, so 3 submitted symbols with one failure yield
exactly 2 entries. -/
theorem C7_batch_isolation {α : Type} (f : α → Option AnalysisResult)
    (l : List α) (a b c : α) (ra rc : AnalysisResult)
    (ha : f a = some ra) (hb : f b = none) (hc : f c = some rc) :
    (∀ r : AnalysisResult, r ∈ analyze_batch f l ↔ r ∈ l.filterMap f)
    ∧ (analyze_batch f l).length = (l.filterMap f).length
    ∧ (analyze_batch f [a, b, c]).length = 2 := by
  refine ⟨?_, ?_, ?_⟩
  · intro r
    exact (sort_desc_perm (l.filterMap f)).mem_iff
  · exact (sort_desc_perm (l.filterMap f)).length_eq
  · rw [show (analyze_batch f [a, b, c]).length
        = ([a, b, c].filterMap f).length from
        (sort_desc_perm ([a, b, c].filterMap f)).length_eq]
    simp [List.filterMap_cons, ha, hb, hc]

/-- C7 witness: of three identifiers the middle one fails; the batch
returns exactly the two successes. -/
theorem C7_batch_isolation_witness :
    (analyze_batch
        (fun n : Nat => if n = 1 then none else some {}) [0, 1, 2]).length = 2 := by
  exact (C7_batch_isolation (fun n : Nat => if n = 1 then none else some {})
    [] 0 1 2 {} {} rfl rfl rfl).2.2

/-- C8 (amended): the trend, bias-level, volume, buy/sell-ratio and
holder modifiers, and the −10 / +5 price modifiers, each append their
reason tag exactly when they adjust the score; but the −5 modifier for
a 24h change in (10, 20], the +3 modifier for a change in [−20, −10)
and the −5-per-risk-warning deduction are applied with no accompanying
reason tag (the source appends nothing in those branches). -/
theorem C8_modifier_tags (t : TrendStatus) (b : BiasLevel) (vc : Option ℚ)
    (r : ℚ) (hc : Option Int) (pc qc p2 q2 : ℚ)
    (h1 : 10 < pc) (h2 : pc ≤ 20) (h3 : -20 ≤ qc) (h4 : qc < -10)
    (h5 : 20 < p2) (h6 : q2 < -20) :
    ((trend_delta t).2 = [] ↔ (trend_delta t).1 = 0)
    ∧ ((bias_delta b).2 = [] ↔ (bias_delta b).1 = 0)
    ∧ ((volume_delta vc).2 = [] ↔ (volume_delta vc).1 = 0)
    ∧ ((ratio_delta r).2 = [] ↔ (ratio_delta r).1 = 0)
    ∧ ((holder_delta hc).2 = [] ↔ (holder_delta hc).1 = 0)
    ∧ price_delta p2 = (-10, [Reason.PumpTooBig])
    ∧ price_delta q2 = (5, [Reason.BigPullback])
    ∧ price_delta pc = (-5, [])
    ∧ price_delta qc = (3, [])
    ∧ (generate_signal {} {} pc []).2.1 = 45
    ∧ (generate_signal {} {} pc []).2.2 = []
    ∧ (generate_signal {} {} qc []).2.1 = 53
    ∧ (generate_signal {} {} qc []).2.2 = []
    ∧ (∀ warns : List Warning,
        (generate_signal {} {} 0 warns).2.1
          = max 0 (min 100 (50 - (warns.length : Int) * 5))
        ∧ (generate_signal {} {} 0 warns).2.2
          = (if 3 ≤ warns.length then [Reason.MultipleRisks] else [])) := by
  have hp : price_delta pc = (-5, []) := by
    unfold price_delta
    rw [if_neg (not_lt.mpr h2), if_pos h1]
  have hq : price_delta qc = (3, []) := by
    unfold price_delta
    rw [if_neg (not_lt.mpr (by linarith : qc ≤ 20)),
      if_neg (not_lt.mpr (by linarith : qc ≤ 10)),
      if_neg (not_lt.mpr h3), if_pos h4]
  have hp2 : price_delta p2 = (-10, [Reason.PumpTooBig]) := by
    unfold price_delta
    rw [if_pos h5]
  have hq2 : price_delta q2 = (5, [Reason.BigPullback]) := by
    unfold price_delta
    rw [if_neg (not_lt.mpr (by linarith : q2 ≤ 20)),
      if_neg (not_lt.mpr (by linarith : q2 ≤ 10)), if_pos h6]
  have hro : ratio_delta 1 = (0, []) := by decide
  have hp0 : price_delta 0 = (0, []) := by decide
  refine ⟨?_, ?_, ?_, ?_, ?_, hp2, hq2, hp, hq, ?_, ?_, ?_, ?_, ?_⟩
  · cases t <;> decide
  · cases b <;> decide
  · cases vc with
    | none => decide
    | some v =>
        simp only [volume_delta]
        split_ifs <;> decide
  · unfold ratio_delta
    split_ifs <;> decide
  · cases hc with
    | none => decide
    | some h =>
        simp only [holder_delta]
        split_ifs <;> decide
  · simp [generate_signal, hp, hro, trend_delta, bias_delta, volume_delta,
      holder_delta]
  · simp [generate_signal, hp, hro, trend_delta, bias_delta, volume_delta,
      holder_delta]
  · simp [generate_signal, hq, hro, trend_delta, bias_delta, volume_delta,
      holder_delta]
  · simp [generate_signal, hq, hro, trend_delta, bias_delta, volume_delta,
      holder_delta]
  · intro warns
    constructor
    · simp [generate_signal, hp0, hro, trend_delta, bias_delta, volume_delta,
        holder_delta]
    · simp [generate_signal, hp0, hro, trend_delta, bias_delta, volume_delta,
        holder_delta]

/-- C8 witness: concrete changes of 25%, 15% and −15%, and a single
risk warning with neutral indicators. -/
theorem C8_modifier_tags_witness :
    price_delta 25 = (-10, [Reason.PumpTooBig])
    ∧ price_delta 15 = (-5, [])
    ∧ (generate_signal {} {} (15:ℚ) []).2.2 = []
    ∧ price_delta (-15) = (3, [])
    ∧ (generate_signal {} {} (-15:ℚ) []).2.2 = []
    ∧ (generate_signal {} {} (0:ℚ) [Warning.LiquidityLow]).2.1 = 45
    ∧ (generate_signal {} {} (0:ℚ) [Warning.LiquidityLow]).2.2 = [] := by
  obtain ⟨g1, g2, g3, g4, g5, g6, g7, g8, g9, g10, g11, g12, g13, g14⟩ :=
    C8_modifier_tags TrendStatus.INSUFFICIENT_DATA BiasLevel.NORMAL none 1 none
      15 (-15) 25 (-25) (by norm_num) (by norm_num) (by norm_num) (by norm_num)
      (by norm_num) (by norm_num)
  refine ⟨g6, g8, g11, g9, g13, ?_, ?_⟩
  · exact (g14 [Warning.LiquidityLow]).1.trans (by decide)
  · exact (g14 [Warning.LiquidityLow]).2.trans (by decide)

/-- C8 counterexample: at a 24h change of 15% the −5 modifier is
applied (the score drops to 45) yet `signal_reasons` stays empty, at
−15% the +3 modifier is applied (score 53) with no reason tag, and
with one risk warning and neutral indicators the −5 deduction is
applied (score 45) with no reason tag — the claim that every applied
modifier is recorded as a reason tag fails. -/
theorem C8_counterexample :
    (generate_signal {} {} (15:ℚ) []).2.1 = 45
    ∧ (generate_signal {} {} (15:ℚ) []).2.2 = []
    ∧ (generate_signal {} {} (-15:ℚ) []).2.1 = 53
    ∧ (generate_signal {} {} (-15:ℚ) []).2.2 = []
    ∧ (generate_signal {} {} (0:ℚ) [Warning.LiquidityLow]).2.1 = 45
    ∧ (generate_signal {} {} (0:ℚ) [Warning.LiquidityLow]).2.2 = [] := by
  refine ⟨?_, ?_, ?_, ?_, ?_, ?_⟩ <;> decide

/-- C9 (amended): the "多重风险" (multiple risk factors) reason tag is
appended exactly when the result carries at least 3 risk warnings,
regardless of the raw mapped signal. -/
theorem C9_multi_tag_iff (tech : TechnicalIndicators)
    (onchain : OnchainIndicators) (pc : ℚ) (warns : List Warning) :
    Reason.MultipleRisks ∈ (generate_signal tech onchain pc warns).2.2
      ↔ 3 ≤ warns.length := by
  simp only [generate_signal]
  by_cases h : 3 ≤ warns.length
  · simp [if_pos h, h]
  · simp only [if_neg h]
    constructor
    · intro hmem
      simp only [List.mem_append] at hmem
      rcases hmem with ((((hm | hm) | hm) | hm) | hm) | hm
      · exact absurd hm (trend_delta_no_multi _)
      · exact absurd hm (bias_delta_no_multi _)
      · exact absurd hm (price_delta_no_multi _)
      · exact absurd hm (volume_delta_no_multi _)
      · exact absurd hm (ratio_delta_no_multi _)
      · exact absurd hm (holder_delta_no_multi _)
    · intro hk
      exact absurd hk h

/-- C9 counterexample: with three risk warnings and neutral indicators
the clamped score is 35, the raw mapped signal is SELL (so the
downgrade cannot fire), yet the "多重风险" tag is appended — the claim
that the tag appears only when the downgrade fires is false. -/
theorem C9_counterexample :
    score_to_signal
        (generate_signal {} {} 0
          (List.replicate 3 Warning.LiquidityExtremelyLow)).2.1
      = SignalType.SELL
    ∧ (generate_signal {} {} 0
        (List.replicate 3 Warning.LiquidityExtremelyLow)).1 = SignalType.SELL
    ∧ Reason.MultipleRisks
        ∈ (generate_signal {} {} 0
            (List.replicate 3 Warning.LiquidityExtremelyLow)).2.2 := by
  refine ⟨?_, ?_, ?_⟩ <;> decide
